import Mathlib

/-!
Verification of the fork-aware contract facade and live event monitor of the
polygon-cli `cdk` command family.

The Go sources are shallowly embedded:
* machine integers (`uint32`, `uint64`, `int`) become `Nat`/`Int` with explicit
  `% 2 ^ w` reductions exactly where the Go code converts or can overflow;
* fallible calls (`func (...) (T, error)`) become `Except Err T`;
* the contract bindings behind `rollupManagerContractInterface` and
  `gerContractInterface` are modelled as records of call results ("handle
  stubs"): one result per read-only capability operation;
* functions that issue sequences of network reads additionally return the list
  of calls they issued, so that claims about which reads happen, and in which
  order, are statable;
* `log.Fatal` (process termination) and `panic` are modelled as dedicated
  outcome constructors, distinct from returned errors.
-/

namespace PolygonCli

/-- On-chain addresses (`common.Address`, 20 bytes) are modelled as naturals
below `2 ^ 160`. -/
abbrev Address := Nat

/-- 32-byte hashes (`common.Hash`) are modelled as naturals. -/
abbrev Hash := Nat

/-- The connected RPC transport (`*ethclient.Client`) is opaque to this core:
no claim depends on its structure. -/
abbrev EthClient := Unit

/-- Go `error` values are modelled as strings (the carrier only needs
distinguishable values; all errors this code builds are message strings). -/
abbrev Err := String

/-- Boolean success test for `Except` results. -/
def exOk {ε α : Type} : Except ε α → Bool
  | .ok _ => true
  | .error _ => false

@[simp] theorem exOk_ok {ε α : Type} (a : α) : exOk (Except.ok a : Except ε α) = true := rfl

@[simp] theorem exOk_error {ε α : Type} (e : ε) : exOk (Except.error e : Except ε α) = false := rfl

/-! ## Fork constants (cdk.go) -/

def blueberry : Nat := 4
def dragonfruit : Nat := 5
def incaberry : Nat := 6
def etrog : Nat := 7
def elderberry : Nat := 9
def feijoa : Nat := 10
def banana : Nat := 12
def durian : Nat := 13

/-- The `knownForks` map: only the etrog, elderberry and banana entries are
live; the blueberry, dragonfruit, incaberry, feijoa and durian entries are
commented out in the source. -/
def knownForks (s : String) : Option Nat :=
  if s = "7" then some etrog
  else if s = "etrog" then some etrog
  else if s = "9" then some elderberry
  else if s = "elderberry" then some elderberry
  else if s = "12" then some banana
  else if s = "banana" then some banana
  else none

/-- The `knownRollupManagerAddresses` map. -/
def knownRollupManagerAddresses (s : String) : Option String :=
  if s = "bali" then some "0xe2ef6215adc132df6913c8dd16487abf118d1764"
  else if s = "cardona" then some "0x32d33D5137a7cFFb54c5Bf8371172bcEc5f310ff"
  else if s = "mainnet" then some "0x5132a183e9f3cb7c848b0aac5ae0c4f0491b7ab2"
  else none

def ArgRollupManagerAddress : String := "rollup-manager-address"
def ArgRollupID : String := "rollup-id"
def ArgRollupChainID : String := "rollup-chain-id"
def ArgRollupAddress : String := "rollup-address"

/-! ## Hex addresses (go-ethereum `common.IsHexAddress` / `common.HexToAddress`) -/

def isHexDigitChar (c : Char) : Bool :=
  c.isDigit || ('a' ≤ c && c ≤ 'f') || ('A' ≤ c && c ≤ 'F')

def hexDigitVal (c : Char) : Nat :=
  if c.isDigit then c.toNat - '0'.toNat
  else if 'a' ≤ c && c ≤ 'f' then c.toNat - 'a'.toNat + 10
  else if 'A' ≤ c && c ≤ 'F' then c.toNat - 'A'.toNat + 10
  else 0

/-- go-ethereum `has0xPrefix` plus the `s = s[2:]` strip, written over the
character list. -/
def stripHexPrefix (s : String) : String :=
  match s.toList with
  | '0' :: 'x' :: rest => String.mk rest
  | '0' :: 'X' :: rest => String.mk rest
  | _ => s

/-- `common.IsHexAddress`: after removing an optional 0x/0X prefix the string
must be exactly 40 hex characters. -/
def isHexAddress (s : String) : Bool :=
  let t := stripHexPrefix s
  t.length == 40 && t.toList.all isHexDigitChar

/-- `common.HexToAddress` on the strings this program passes it (validated or
hard-coded 40-hex-digit strings): the hex value, truncated to 160 bits as
`BytesToAddress` keeps only the trailing 20 bytes. -/
def hexToAddress (s : String) : Address :=
  ((stripHexPrefix s).toList.foldl (fun acc c => acc * 16 + hexDigitVal c) 0) % 2 ^ 160

/-- `checkAddressArg` (cdk.go). -/
def checkAddressArg (argFlagName address : String) : Except Err Unit :=
  if isHexAddress address then .ok ()
  else .error ("invalid flag " ++ argFlagName ++ ": invalid address")

/-! ## mustGetRPCClient and parseCDKArgs (cdk.go) -/

/-- Outcome of a computation that may terminate the whole process through
`log.Fatal` instead of returning. -/
inductive MustOutcome (α : Type) where
  | ok (a : α)
  | fatalExit
  deriving DecidableEq, Repr

/-- `mustGetRPCClient`: on a dial error it calls `log.Fatal`, which exits the
process; it never returns an error value. The dial attempt itself is the
function's input. -/
def mustGetRPCClient (dial : Except Err EthClient) : MustOutcome EthClient :=
  match dial with
  | .ok c => .ok c
  | .error _ => .fatalExit

structure parsedCDKArgs where
  rpcURL : String
  rpcClient : EthClient
  forkID : Nat
  deriving DecidableEq, Repr

/-- The message built by `parseCDKArgs` for an unknown fork: the source
allocates `make([]string, len(knownForks))` (six empty strings) and then
appends the six keys, so the sorted, comma-joined list starts with six empty
entries. -/
def invalidForkIDMessage : Err :=
  "invalid forkID. supported forkIDs are , , , , , , 12, 7, 9, banana, elderberry, etrog"

/-- `parseCDKArgs`: dials the RPC endpoint through `mustGetRPCClient` (fatal on
failure), then validates the fork-id string against `knownForks` — but only
when the string is non-nil and non-empty; otherwise `args.forkID` keeps Go's
zero value 0. -/
def parseCDKArgs (dial : Except Err EthClient) (rpcURL : String)
    (forkIDArg : Option String) : MustOutcome (Except Err parsedCDKArgs) :=
  match mustGetRPCClient dial with
  | .fatalExit => .fatalExit
  | .ok client =>
    match forkIDArg with
    | some s =>
      if s.length > 0 then
        match knownForks s with
        | none => .ok (.error invalidForkIDMessage)
        | some f => .ok (.ok { rpcURL := rpcURL, rpcClient := client, forkID := f })
      else .ok (.ok { rpcURL := rpcURL, rpcClient := client, forkID := 0 })
    | none => .ok (.ok { rpcURL := rpcURL, rpcClient := client, forkID := 0 })

/-! ## parseRollupManagerArgs (cdk.go) -/

/-- The concrete fork binding selected for the rollup manager: the
`NewPolygonrollupmanager` constructors of the etrog/elderberry/banana packages
parse a fixed, valid embedded ABI and bind to the given address, so they are
modelled as total; a constructed binding is its (fork, address) pair. -/
structure rmBinding where
  fork : Nat
  address : Address
  deriving DecidableEq, Repr

/-- `parsedRollupManagerArgs`: `rollupManager` is a Go interface value that the
fork switch may leave nil — hence `Option`. -/
structure parsedRollupManagerArgs where
  rollupManager : Option rmBinding
  rollupManagerAddress : Address
  deriving DecidableEq, Repr

/-- `parseRollupManagerArgs`: resolves the address (well-known name or
validated hex), then switches on the fork id; the switch has cases only for
etrog, elderberry and banana and no default, so any other fork id leaves the
`rollupManager` binding nil and still returns without error. -/
def parseRollupManagerArgs (cdkForkID : Nat) (rollupManagerAddressArg : String)
    (_client : EthClient) : Except Err parsedRollupManagerArgs :=
  let addrE : Except Err Address :=
    match knownRollupManagerAddresses rollupManagerAddressArg with
    | some known => .ok (hexToAddress known)
    | none =>
      match checkAddressArg ArgRollupManagerAddress rollupManagerAddressArg with
      | .error e => .error e
      | .ok _ => .ok (hexToAddress rollupManagerAddressArg)
  match addrE with
  | .error e => .error e
  | .ok addr =>
    let mgr : Option rmBinding :=
      if cdkForkID = etrog then some { fork := etrog, address := addr }
      else if cdkForkID = elderberry then some { fork := elderberry, address := addr }
      else if cdkForkID = banana then some { fork := banana, address := addr }
      else none
    .ok { rollupManager := mgr, rollupManagerAddress := addr }

/-- The set of forks for which a rollup-manager binding constructor exists:
exactly the cases of the `parseRollupManagerArgs` switch. -/
def supportedFork (f : Nat) : Bool :=
  f == etrog || f == elderberry || f == banana

theorem knownForks_supported {s : String} {f : Nat} (h : knownForks s = some f) :
    supportedFork f = true := by
  unfold knownForks at h
  repeat' split at h
  all_goals simp_all [supportedFork, etrog, elderberry, banana]

theorem knownForks_nonempty {s : String} {f : Nat} (h : knownForks s = some f) :
    0 < s.length := by
  by_contra hlen
  have hs : s = "" := by
    cases s with
    | mk data =>
      cases data with
      | nil => rfl
      | cons c cs => simp [String.length] at hlen
  subst hs
  simp [knownForks] at h

/-! ## Snapshot records and contract capability interfaces -/

/-- `RollupManagerData` (rollupManager.go): the rollup-manager snapshot.
`BatchFee` is a `*big.Int`, modelled as `Int`; the uint32/uint64 counters are
naturals. -/
structure RollupManagerData where
  Pol : Address
  BridgeAddress : Address
  RollupCount : Nat
  BatchFee : Int
  TotalSequencedBatches : Nat
  TotalVerifiedBatches : Nat
  LastAggregationTimestamp : Nat
  LastDeactivatedEmergencyStateTimestamp : Nat
  deriving DecidableEq, Repr

/-- `RollupData` (rollup.go): the per-rollup record built from
`RollupIDToRollupData`. -/
structure RollupData where
  RollupContract : Address
  ChainID : Nat
  Verifier : Address
  ForkID : Nat
  LastLocalExitRoot : Hash
  LastBatchSequenced : Nat
  LastVerifiedBatch : Nat
  LastPendingState : Nat
  LastPendingStateConsolidated : Nat
  LastVerifiedBatchBeforeUpgrade : Nat
  RollupTypeID : Nat
  RollupCompatibilityID : Nat
  deriving DecidableEq, Repr

/-- `RollupTypeData`: the per-rollup-type record built from `RollupTypeMap`. -/
structure RollupTypeData where
  ConsensusImplementation : Address
  Verifier : Address
  ForkID : Nat
  RollupCompatibilityID : Nat
  Obsolete : Bool
  Genesis : Hash
  deriving DecidableEq, Repr

/-- `rollupManagerContractInterface`: one `Except` result per read-only
capability operation. A deterministic stub suffices because each no-argument
operation is invoked at most once per assembly, and the indexed operations are
invoked with pairwise distinct indices. The getter returns the bound-contract
tuple whose fields `getRollupManagerRollups` copies one-for-one into
`RollupData`, so the stub returns the record directly. -/
structure rollupManagerContractInterface where
  Pol : Except Err Address
  BridgeAddress : Except Err Address
  RollupCount : Except Err Nat
  GetBatchFee : Except Err Int
  TotalSequencedBatches : Except Err Nat
  TotalVerifiedBatches : Except Err Nat
  LastAggregationTimestamp : Except Err Nat
  LastDeactivatedEmergencyStateTimestamp : Except Err Nat
  RollupTypeCount : Except Err Nat
  RollupIDToRollupData : Nat → Except Err RollupData
  RollupTypeMap : Nat → Except Err RollupTypeData
  ChainIDToRollupID : Nat → Except Err Nat
  RollupAddressToID : Address → Except Err Nat

/-- The read calls `getRollupManagerData`, `getRollupManagerRollups` and
`getRollupManagerRollupTypes` can issue against a rollup-manager handle. -/
inductive RMCall where
  | pol
  | bridgeAddress
  | rollupCount
  | getBatchFee
  | totalSequencedBatches
  | totalVerifiedBatches
  | lastAggregationTimestamp
  | lastDeactivatedEmergencyStateTimestamp
  | rollupTypeCount
  | rollupIDToRollupData (i : Nat)
  | rollupTypeMap (i : Nat)
  deriving DecidableEq, Repr

/-- `getRollupManagerData` (rollupManager.go): eight reads in fixed order, each
followed by an error check that returns `(nil, err)` at once; the
(rate-limiting) sleeps between calls do not affect the data flow. The result
also carries the list of calls issued, in order. -/
def getRollupManagerData (rollupManager : rollupManagerContractInterface) :
    List RMCall × Except Err RollupManagerData :=
  match rollupManager.Pol with
  | .error e => ([.pol], .error e)
  | .ok pol =>
  match rollupManager.BridgeAddress with
  | .error e => ([.pol, .bridgeAddress], .error e)
  | .ok bridgeAddress =>
  match rollupManager.RollupCount with
  | .error e => ([.pol, .bridgeAddress, .rollupCount], .error e)
  | .ok rollupCount =>
  match rollupManager.GetBatchFee with
  | .error e => ([.pol, .bridgeAddress, .rollupCount, .getBatchFee], .error e)
  | .ok batchFee =>
  match rollupManager.TotalSequencedBatches with
  | .error e =>
    ([.pol, .bridgeAddress, .rollupCount, .getBatchFee, .totalSequencedBatches], .error e)
  | .ok totalSequencedBatches =>
  match rollupManager.TotalVerifiedBatches with
  | .error e =>
    ([.pol, .bridgeAddress, .rollupCount, .getBatchFee, .totalSequencedBatches,
      .totalVerifiedBatches], .error e)
  | .ok totalVerifiedBatches =>
  match rollupManager.LastAggregationTimestamp with
  | .error e =>
    ([.pol, .bridgeAddress, .rollupCount, .getBatchFee, .totalSequencedBatches,
      .totalVerifiedBatches, .lastAggregationTimestamp], .error e)
  | .ok lastAggregationTimestamp =>
  match rollupManager.LastDeactivatedEmergencyStateTimestamp with
  | .error e =>
    ([.pol, .bridgeAddress, .rollupCount, .getBatchFee, .totalSequencedBatches,
      .totalVerifiedBatches, .lastAggregationTimestamp,
      .lastDeactivatedEmergencyStateTimestamp], .error e)
  | .ok lastDeactivatedEmergencyStateTimestamp =>
    ([.pol, .bridgeAddress, .rollupCount, .getBatchFee, .totalSequencedBatches,
      .totalVerifiedBatches, .lastAggregationTimestamp,
      .lastDeactivatedEmergencyStateTimestamp],
     .ok { Pol := pol
           BridgeAddress := bridgeAddress
           RollupCount := rollupCount
           BatchFee := batchFee
           TotalSequencedBatches := totalSequencedBatches
           TotalVerifiedBatches := totalVerifiedBatches
           LastAggregationTimestamp := lastAggregationTimestamp
           LastDeactivatedEmergencyStateTimestamp := lastDeactivatedEmergencyStateTimestamp })

/-- `gerData` (ger.go): the global-exit-root-manager snapshot. -/
structure gerData where
  BridgeAddress : Address
  DepositCount : Int
  GetLastGlobalExitRoot : Hash
  Root : Hash
  LastMainnetExitRoot : Hash
  LastRollupExitRoot : Hash
  RollupManager : Address
  deriving DecidableEq, Repr

/-- `gerContractInterface`: one `Except` result per read-only capability
operation of the global-exit-root-manager contract. -/
structure gerContractInterface where
  BridgeAddress : Except Err Address
  DepositCount : Except Err Int
  GetLastGlobalExitRoot : Except Err Hash
  GetRoot : Except Err Hash
  LastMainnetExitRoot : Except Err Hash
  LastRollupExitRoot : Except Err Hash
  RollupManager : Except Err Address

/-- The read calls `getGERData` can issue against a GER handle. -/
inductive GERCall where
  | bridgeAddress
  | depositCount
  | getLastGlobalExitRoot
  | getRoot
  | lastMainnetExitRoot
  | lastRollupExitRoot
  | rollupManager
  deriving DecidableEq, Repr

/-- `getGERData` (ger.go): seven reads in fixed order, aborting on the first
error, paired with the list of calls issued. -/
def getGERData (ger : gerContractInterface) : List GERCall × Except Err gerData :=
  match ger.BridgeAddress with
  | .error e => ([.bridgeAddress], .error e)
  | .ok bridgeAddress =>
  match ger.DepositCount with
  | .error e => ([.bridgeAddress, .depositCount], .error e)
  | .ok depositCount =>
  match ger.GetLastGlobalExitRoot with
  | .error e => ([.bridgeAddress, .depositCount, .getLastGlobalExitRoot], .error e)
  | .ok getLastGlobalExitRoot =>
  match ger.GetRoot with
  | .error e => ([.bridgeAddress, .depositCount, .getLastGlobalExitRoot, .getRoot], .error e)
  | .ok root =>
  match ger.LastMainnetExitRoot with
  | .error e =>
    ([.bridgeAddress, .depositCount, .getLastGlobalExitRoot, .getRoot,
      .lastMainnetExitRoot], .error e)
  | .ok lastMainnetExitRoot =>
  match ger.LastRollupExitRoot with
  | .error e =>
    ([.bridgeAddress, .depositCount, .getLastGlobalExitRoot, .getRoot,
      .lastMainnetExitRoot, .lastRollupExitRoot], .error e)
  | .ok lastRollupExitRoot =>
  match ger.RollupManager with
  | .error e =>
    ([.bridgeAddress, .depositCount, .getLastGlobalExitRoot, .getRoot,
      .lastMainnetExitRoot, .lastRollupExitRoot, .rollupManager], .error e)
  | .ok rollupManager =>
    ([.bridgeAddress, .depositCount, .getLastGlobalExitRoot, .getRoot,
      .lastMainnetExitRoot, .lastRollupExitRoot, .rollupManager],
     .ok { BridgeAddress := bridgeAddress
           DepositCount := depositCount
           GetLastGlobalExitRoot := getLastGlobalExitRoot
           Root := root
           LastMainnetExitRoot := lastMainnetExitRoot
           LastRollupExitRoot := lastRollupExitRoot
           RollupManager := rollupManager })

/-- All eight reads performed by `getRollupManagerData` succeed on this
handle. -/
def rmAllReadsOk (rm : rollupManagerContractInterface) : Bool :=
  exOk rm.Pol && exOk rm.BridgeAddress && exOk rm.RollupCount && exOk rm.GetBatchFee &&
  exOk rm.TotalSequencedBatches && exOk rm.TotalVerifiedBatches &&
  exOk rm.LastAggregationTimestamp && exOk rm.LastDeactivatedEmergencyStateTimestamp

/-- All seven reads performed by `getGERData` succeed on this handle. -/
def gerAllReadsOk (g : gerContractInterface) : Bool :=
  exOk g.BridgeAddress && exOk g.DepositCount && exOk g.GetLastGlobalExitRoot &&
  exOk g.GetRoot && exOk g.LastMainnetExitRoot && exOk g.LastRollupExitRoot &&
  exOk g.RollupManager

/-- Position (1-based, in the fixed call order) and error of the first failing
read of `getRollupManagerData`, if any. -/
def rmFirstError (rm : rollupManagerContractInterface) : Option (Nat × Err) :=
  match rm.Pol with
  | .error e => some (1, e)
  | .ok _ =>
  match rm.BridgeAddress with
  | .error e => some (2, e)
  | .ok _ =>
  match rm.RollupCount with
  | .error e => some (3, e)
  | .ok _ =>
  match rm.GetBatchFee with
  | .error e => some (4, e)
  | .ok _ =>
  match rm.TotalSequencedBatches with
  | .error e => some (5, e)
  | .ok _ =>
  match rm.TotalVerifiedBatches with
  | .error e => some (6, e)
  | .ok _ =>
  match rm.LastAggregationTimestamp with
  | .error e => some (7, e)
  | .ok _ =>
  match rm.LastDeactivatedEmergencyStateTimestamp with
  | .error e => some (8, e)
  | .ok _ => none

/-- Position (1-based, in the fixed call order) and error of the first failing
read of `getGERData`, if any. -/
def gerFirstError (g : gerContractInterface) : Option (Nat × Err) :=
  match g.BridgeAddress with
  | .error e => some (1, e)
  | .ok _ =>
  match g.DepositCount with
  | .error e => some (2, e)
  | .ok _ =>
  match g.GetLastGlobalExitRoot with
  | .error e => some (3, e)
  | .ok _ =>
  match g.GetRoot with
  | .error e => some (4, e)
  | .ok _ =>
  match g.LastMainnetExitRoot with
  | .error e => some (5, e)
  | .ok _ =>
  match g.LastRollupExitRoot with
  | .error e => some (6, e)
  | .ok _ =>
  match g.RollupManager with
  | .error e => some (7, e)
  | .ok _ => none

/-! ## Handle stubs used as concrete inputs -/

def rollupDataStub : RollupData :=
  { RollupContract := 0, ChainID := 0, Verifier := 0, ForkID := 0, LastLocalExitRoot := 0,
    LastBatchSequenced := 0, LastVerifiedBatch := 0, LastPendingState := 0,
    LastPendingStateConsolidated := 0, LastVerifiedBatchBeforeUpgrade := 0,
    RollupTypeID := 0, RollupCompatibilityID := 0 }

def rollupTypeDataStub : RollupTypeData :=
  { ConsensusImplementation := 0, Verifier := 0, ForkID := 0, RollupCompatibilityID := 0,
    Obsolete := false, Genesis := 0 }

/-- A rollup-manager handle stub on which every read succeeds; the indexed
reads record their index so the produced records identify their origin. -/
def rmStubOk : rollupManagerContractInterface :=
  { Pol := .ok 161
    BridgeAddress := .ok 187
    RollupCount := .ok 2
    GetBatchFee := .ok 5
    TotalSequencedBatches := .ok 10
    TotalVerifiedBatches := .ok 9
    LastAggregationTimestamp := .ok 100
    LastDeactivatedEmergencyStateTimestamp := .ok 50
    RollupTypeCount := .ok 1
    RollupIDToRollupData := fun i => .ok { rollupDataStub with RollupTypeID := i }
    RollupTypeMap := fun i => .ok { rollupTypeDataStub with ForkID := i }
    ChainIDToRollupID := fun _ => .ok 0
    RollupAddressToID := fun _ => .ok 0 }

def rmStubFailPol : rollupManagerContractInterface :=
  { rmStubOk with Pol := .error "read failed" }

def rmStubFailBridge : rollupManagerContractInterface :=
  { rmStubOk with BridgeAddress := .error "read failed" }

/-- A GER handle stub on which every read succeeds. -/
def gerStubOk : gerContractInterface :=
  { BridgeAddress := .ok 187
    DepositCount := .ok 3
    GetLastGlobalExitRoot := .ok 7
    GetRoot := .ok 8
    LastMainnetExitRoot := .ok 9
    LastRollupExitRoot := .ok 11
    RollupManager := .ok 161 }

def gerStubFailDeposit : gerContractInterface :=
  { gerStubOk with DepositCount := .error "boom" }

/-! ## C1 — snapshot assembly is atomic -/

/-- C1: snapshot assembly is atomic. For every rollup-manager handle and every
GER handle, `getRollupManagerData` (resp. `getGERData`) returns an `ok`
snapshot exactly when all of its underlying reads succeed; whenever any read
fails — in particular whenever the Nth call in the fixed order fails — the
result is an error carrying no snapshot value, so a partially built record is
never observable by the caller. -/
theorem snapshot_assembly_atomic (rm : rollupManagerContractInterface)
    (g : gerContractInterface) :
    exOk (getRollupManagerData rm).2 = rmAllReadsOk rm ∧
    exOk (getGERData g).2 = gerAllReadsOk g := by
  constructor
  · obtain ⟨p, b, c, bf, s, v, a, d, tc, r1, r2, r3, r4⟩ := rm
    unfold getRollupManagerData rmAllReadsOk
    cases p <;> cases b <;> cases c <;> cases bf <;> cases s <;> cases v <;> cases a <;>
      cases d <;> rfl
  · obtain ⟨b, dc, gl, gr, lm, lr, rmgr⟩ := g
    unfold getGERData gerAllReadsOk
    cases b <;> cases dc <;> cases gl <;> cases gr <;> cases lm <;> cases lr <;>
      cases rmgr <;> rfl

/-! ## C5 — the first failing call aborts assembly; the error is returned
unchanged, not tagged with the field -/

/-- C5 counterexample: the returned error does not identify the field whose
read failed. Two handles failing at different positions (first read `Pol`
vs. second read `BridgeAddress`) with the same underlying error value produce
identical returned errors — the source returns `err` verbatim with no
field-naming wrap — even though the traces show different failing calls. -/
theorem assembly_error_not_field_tagged :
    (getRollupManagerData rmStubFailPol).2 = (getRollupManagerData rmStubFailBridge).2 ∧
    (getRollupManagerData rmStubFailPol).1 = [RMCall.pol] ∧
    (getRollupManagerData rmStubFailBridge).1 = [RMCall.pol, RMCall.bridgeAddress] :=
  ⟨rfl, rfl, rfl⟩

/-- C5 (amended): when a read fails during snapshot assembly, the first failing
call — position `n` in the fixed order — aborts assembly immediately (exactly
`n` calls are issued) and the original call's error is returned to the caller
unchanged; it is not tagged with the field being fetched. -/
theorem assembly_first_error_returned_unchanged
    (rm : rollupManagerContractInterface) (g : gerContractInterface)
    (n m : Nat) (e f : Err)
    (hrm : rmFirstError rm = some (n, e)) (hg : gerFirstError g = some (m, f)) :
    ((getRollupManagerData rm).1.length = n ∧
      (getRollupManagerData rm).2 = Except.error e) ∧
    ((getGERData g).1.length = m ∧ (getGERData g).2 = Except.error f) := by
  constructor
  · obtain ⟨p, b, c, bf, s, v, a, d, tc, r1, r2, r3, r4⟩ := rm
    unfold rmFirstError at hrm
    unfold getRollupManagerData
    cases p <;> cases b <;> cases c <;> cases bf <;> cases s <;> cases v <;> cases a <;>
      cases d <;> simp_all
  · obtain ⟨b, dc, gl, gr, lm, lr, rmgr⟩ := g
    unfold gerFirstError at hg
    unfold getGERData
    cases b <;> cases dc <;> cases gl <;> cases gr <;> cases lm <;> cases lr <;>
      cases rmgr <;> simp_all

/-- C5 witness: concrete handles whose second read fails. -/
theorem assembly_first_error_returned_unchanged_witness :
    (rmFirstError rmStubFailBridge = some (2, "read failed") ∧
      gerFirstError gerStubFailDeposit = some (2, "boom")) ∧
    ((getRollupManagerData rmStubFailBridge).1.length = 2 ∧
      (getRollupManagerData rmStubFailBridge).2 = Except.error "read failed") ∧
    ((getGERData gerStubFailDeposit).1.length = 2 ∧
      (getGERData gerStubFailDeposit).2 = Except.error "boom") :=
  ⟨⟨rfl, rfl⟩,
    assembly_first_error_returned_unchanged rmStubFailBridge gerStubFailDeposit
      2 2 "read failed" "boom" rfl rfl⟩

/-! ## C4 — rollup / rollup-type enumeration -/

/-- The `for i := uint32(1); i <= count; i++` loop shared by
`getRollupManagerRollups` and `getRollupManagerRollupTypes` (rollupManager.go):
while `i ≤ count`, issue the indexed read, return `(nil, err)` on error, append
the record, sleep, and increment the uint32 counter — modelled with its
wrap-around `% 2 ^ 32`. `fuel` bounds how many iterations the model unrolls; a
`none` result means the loop has not returned within `fuel` iterations. The
returned `List Nat` is the trace of indices read, in order. -/
def enumLoopFuel {α : Type} (read : Nat → Except Err α) (count : Nat) :
    Nat → Nat → List Nat → List α → List Nat × Option (Except Err (List α))
  | 0, _, trace, _ => (trace, none)
  | fuel + 1, i, trace, acc =>
    if i ≤ count then
      match read i with
      | .error e => (trace ++ [i], some (.error e))
      | .ok r => enumLoopFuel read count fuel ((i + 1) % 2 ^ 32) (trace ++ [i]) (acc ++ [r])
    else (trace, some (.ok acc))

/-- `getRollupManagerRollups` (rollupManager.go): read the count, then
enumerate indices from 1. -/
def getRollupManagerRollups (rollupManager : rollupManagerContractInterface)
    (fuel : Nat) : List RMCall × Option (Except Err (List RollupData)) :=
  match rollupManager.RollupCount with
  | .error e => ([.rollupCount], some (.error e))
  | .ok rollupCount =>
    let r := enumLoopFuel rollupManager.RollupIDToRollupData rollupCount fuel 1 [] []
    (RMCall.rollupCount :: r.1.map RMCall.rollupIDToRollupData, r.2)

/-- `getRollupManagerRollupTypes` (rollupManager.go): read the type count, then
enumerate indices from 1. -/
def getRollupManagerRollupTypes (rollupManager : rollupManagerContractInterface)
    (fuel : Nat) : List RMCall × Option (Except Err (List RollupTypeData)) :=
  match rollupManager.RollupTypeCount with
  | .error e => ([.rollupTypeCount], some (.error e))
  | .ok rollupTypeCount =>
    let r := enumLoopFuel rollupManager.RollupTypeMap rollupTypeCount fuel 1 [] []
    (RMCall.rollupTypeCount :: r.1.map RMCall.rollupTypeMap, r.2)

theorem range_map_shift {β : Type} (g : Nat → β) (i n : Nat) :
    g i :: (List.range n).map (fun k => g (i + 1 + k)) =
      (List.range (n + 1)).map (fun k => g (i + k)) := by
  rw [List.range_succ_eq_map, List.map_cons, List.map_map]
  refine congrArg₂ List.cons rfl ?_
  refine List.map_congr_left fun a _ => ?_
  exact congrArg g (by omega)

/-- On a handle whose indexed reads all succeed in `[1, count]`, the loop
terminates for any `count + 1 < 2 ^ 32` and reads exactly the indices
`i, i + 1, …, count` in ascending order, producing the records in the same
order. -/
theorem enumLoopFuel_ok {α : Type} (read : Nat → Except Err α) (count : Nat)
    (f : Nat → α) (hcb : count + 1 < 2 ^ 32)
    (hf : ∀ j, 1 ≤ j → j ≤ count → read j = Except.ok (f j)) :
    ∀ fuel i trace acc, 1 ≤ i → i ≤ count + 1 → count + 2 - i ≤ fuel →
      enumLoopFuel read count fuel i trace acc =
        (trace ++ (List.range (count + 1 - i)).map (fun k => i + k),
         some (Except.ok (acc ++ (List.range (count + 1 - i)).map (fun k => f (i + k))))) := by
  intro fuel
  induction fuel with
  | zero => intro i trace acc h1 h2 h3; omega
  | succ fu ih =>
    intro i trace acc h1 h2 h3
    by_cases hle : i ≤ count
    · have hread := hf i h1 hle
      have hmod : (i + 1) % 2 ^ 32 = i + 1 := Nat.mod_eq_of_lt (by omega)
      simp only [enumLoopFuel, if_pos hle, hread, hmod]
      rw [ih (i + 1) (trace ++ [i]) (acc ++ [f i]) (by omega) (by omega) (by omega)]
      have hn : count + 1 - i = (count - i) + 1 := by omega
      have hn2 : count + 1 - (i + 1) = count - i := by omega
      rw [hn, hn2, List.append_assoc, List.append_assoc, List.singleton_append,
        List.singleton_append, range_map_shift (fun k => k) i (count - i),
        range_map_shift f i (count - i)]
    · have hieq : i = count + 1 := by omega
      have hz : count + 1 - i = 0 := by omega
      simp [enumLoopFuel, if_neg hle, hz]

/-- On a handle whose indexed reads all succeed, a loop bound of
`2 ^ 32 - 1` never lets the uint32 counter exceed the bound: the loop never
returns, whatever the fuel. -/
theorem enumLoopFuel_max_none {α : Type} (read : Nat → Except Err α)
    (hok : ∀ j, exOk (read j) = true) :
    ∀ fuel i trace acc, i < 2 ^ 32 →
      (enumLoopFuel read (2 ^ 32 - 1) fuel i trace acc).2 = none := by
  intro fuel
  induction fuel with
  | zero => intro i trace acc _; rfl
  | succ fu ih =>
    intro i trace acc hi
    have hle : i ≤ 2 ^ 32 - 1 := by omega
    simp only [enumLoopFuel, if_pos hle]
    cases hread : read i with
    | error e =>
      have hcontra := hok i
      rw [hread] at hcontra
      simp [exOk] at hcontra
    | ok r =>
      exact ih ((i + 1) % 2 ^ 32) (trace ++ [i]) (acc ++ [r]) (Nat.mod_lt _ (by norm_num))

/-- A rollup-manager handle stub reporting the maximal uint32 rollup count,
with every indexed read succeeding. -/
def rmStubMaxCount : rollupManagerContractInterface :=
  { rmStubOk with RollupCount := .ok (2 ^ 32 - 1) }

/-- The enumeration returns (with any result at all) within some number of
iterations. -/
def rollupsEnumReturns (rollupManager : rollupManagerContractInterface) : Prop :=
  ∃ fuel, ((getRollupManagerRollups rollupManager fuel).2).isSome

/-- C4 counterexample: for a handle whose reported count is `2 ^ 32 - 1` (a
legal uint32 value) and whose indexed reads all succeed, the enumeration never
returns: the uint32 loop counter `i` always satisfies `i ≤ count` after the
wrap-around, so `getRollupManagerRollups` does not issue exactly `N` indexed
reads and never produces the records — refuting the claim at this count. -/
theorem rollup_enumeration_diverges_at_max_uint32_count :
    ¬ rollupsEnumReturns rmStubMaxCount := by
  rintro ⟨fuel, h⟩
  have hnone := enumLoopFuel_max_none rmStubMaxCount.RollupIDToRollupData
      (fun j => rfl) fuel 1 [] [] (by norm_num)
  unfold getRollupManagerRollups at h
  rw [show rmStubMaxCount.RollupCount = Except.ok (2 ^ 32 - 1) from rfl] at h
  dsimp only at h
  rw [hnone] at h
  simp at h

/-- C4 (amended): rollup and rollup-type enumeration is 1-based and
contiguous for every reported count `N ≤ 2 ^ 32 - 2`: the count is read first,
then exactly `N` indexed reads are issued with indices `1, 2, …, N` in
ascending order, producing one record per index in that order. (At the
remaining uint32 count `2 ^ 32 - 1` the loop counter wraps and the enumeration
never completes.) -/
theorem rollup_enumeration_one_based_contiguous
    (rm : rollupManagerContractInterface) (count tcount fuel : Nat)
    (f : Nat → RollupData) (g : Nat → RollupTypeData)
    (hc : rm.RollupCount = Except.ok count)
    (hcb : count ≤ 2 ^ 32 - 2)
    (hf : ∀ j, 1 ≤ j → j ≤ count → rm.RollupIDToRollupData j = Except.ok (f j))
    (hfc : count + 1 ≤ fuel)
    (htc : rm.RollupTypeCount = Except.ok tcount)
    (htb : tcount ≤ 2 ^ 32 - 2)
    (hg : ∀ j, 1 ≤ j → j ≤ tcount → rm.RollupTypeMap j = Except.ok (g j))
    (hgc : tcount + 1 ≤ fuel) :
    getRollupManagerRollups rm fuel =
      (RMCall.rollupCount ::
        (List.range count).map (fun k => RMCall.rollupIDToRollupData (1 + k)),
       some (Except.ok ((List.range count).map (fun k => f (1 + k))))) ∧
    getRollupManagerRollupTypes rm fuel =
      (RMCall.rollupTypeCount ::
        (List.range tcount).map (fun k => RMCall.rollupTypeMap (1 + k)),
       some (Except.ok ((List.range tcount).map (fun k => g (1 + k))))) := by
  constructor
  · unfold getRollupManagerRollups
    rw [hc]
    dsimp only
    rw [enumLoopFuel_ok rm.RollupIDToRollupData count f (by omega) hf fuel 1 [] []
      (by omega) (by omega) (by omega)]
    simp [List.map_map, Function.comp_def]
  · unfold getRollupManagerRollupTypes
    rw [htc]
    dsimp only
    rw [enumLoopFuel_ok rm.RollupTypeMap tcount g (by omega) hg fuel 1 [] []
      (by omega) (by omega) (by omega)]
    simp [List.map_map, Function.comp_def]

/-- C4 witness: on the concrete stub (count 2, type count 1) the traces are
`[rollupCount, read 1, read 2]` and `[rollupTypeCount, read 1]`. -/
theorem rollup_enumeration_one_based_contiguous_witness :
    getRollupManagerRollups rmStubOk 10 =
      ([RMCall.rollupCount, RMCall.rollupIDToRollupData 1, RMCall.rollupIDToRollupData 2],
       some (Except.ok [{ rollupDataStub with RollupTypeID := 1 },
         { rollupDataStub with RollupTypeID := 2 }])) ∧
    getRollupManagerRollupTypes rmStubOk 10 =
      ([RMCall.rollupTypeCount, RMCall.rollupTypeMap 1],
       some (Except.ok [{ rollupTypeDataStub with ForkID := 1 }])) := by
  have h := rollup_enumeration_one_based_contiguous rmStubOk 2 1 10
      (fun j => { rollupDataStub with RollupTypeID := j })
      (fun j => { rollupTypeDataStub with ForkID := j })
      rfl (by norm_num) (fun j h1 h2 => rfl) (by norm_num)
      rfl (by norm_num) (fun j h1 h2 => rfl) (by norm_num)
  refine ⟨?_, ?_⟩
  · rw [h.1]; rfl
  · rw [h.2]; rfl

/-! ## Fork resolution and the contract chain walk -/

/-- A resolved contract handle: bound at resolution time to exactly one fork
revision and one on-chain address. -/
structure ContractHandle where
  fork : Nat
  address : Address
  deriving DecidableEq, Repr

def rollupManagerKind : Nat := 0
def bridgeKind : Nat := 1
def gerKind : Nat := 2

/-- The ABI definition associated with a resolved handle (consumed by the
generic event-decoding path), modelled as the pair (contract kind, fork): the
only structure any claim depends on is that each (kind, fork) pair has its own
definition. -/
abbrev ABIToken := Nat × Nat

/-- Modelled from the spec: `getRollupManager` — the §4.2 Fork Resolver for the
rollup-manager contract kind; its source file is not under src/ (ger.go calls
it as `rollupManager, _, err := getRollupManager(cdkArgs, rpcClient, addr)`).
Per §4.2 it dispatches on the fork identifier to the matching binding
constructor — the same closed set as the `parseRollupManagerArgs` switch —
makes no network call, and fails for an unsupported fork. -/
def getRollupManager (cdkArgs : parsedCDKArgs) (_rpcClient : EthClient)
    (addr : Address) : Except Err (ContractHandle × ABIToken) :=
  if supportedFork cdkArgs.forkID then
    .ok ({ fork := cdkArgs.forkID, address := addr }, (rollupManagerKind, cdkArgs.forkID))
  else .error "unsupported fork id for the rollup manager contract"

/-- Modelled from the spec: `getBridge` — the §4.2 Fork Resolver for the bridge
contract kind (not under src/); same closed fork set, no network call. -/
def getBridge (cdkArgs : parsedCDKArgs) (_rpcClient : EthClient)
    (addr : Address) : Except Err (ContractHandle × ABIToken) :=
  if supportedFork cdkArgs.forkID then
    .ok ({ fork := cdkArgs.forkID, address := addr }, (bridgeKind, cdkArgs.forkID))
  else .error "unsupported fork id for the bridge contract"

/-- Modelled from the spec: `getGER` — the §4.2 Fork Resolver for the
global-exit-root-manager contract kind (not under src/); same closed fork set,
no network call. -/
def getGER (cdkArgs : parsedCDKArgs) (_rpcClient : EthClient)
    (addr : Address) : Except Err (ContractHandle × ABIToken) :=
  if supportedFork cdkArgs.forkID then
    .ok ({ fork := cdkArgs.forkID, address := addr }, (gerKind, cdkArgs.forkID))
  else .error "unsupported fork id for the global exit root manager contract"

/-- Modelled from the spec: the bridge capability interface (its source file is
not under src/). Of the bridge snapshot the spec documents the field the chain
walk consumes — the reported global-exit-root-manager address — so only that
read is modelled. -/
structure bridgeContractInterface where
  GlobalExitRootManager : Except Err Address

/-- Modelled from the spec: the bridge snapshot record consumed as
`bridgeData.GlobalExitRootManager` in ger.go. -/
structure bridgeData where
  GlobalExitRootManager : Address
  deriving DecidableEq, Repr

inductive BridgeCall where
  | globalExitRootManager
  deriving DecidableEq, Repr

/-- Modelled from the spec: `getBridgeData`, the §4.3 snapshot assembler for
the bridge contract (not under src/): sequential reads aborting on the first
error with the raw error; only the spec-documented field is modelled. -/
def getBridgeData (bridge : bridgeContractInterface) :
    List BridgeCall × Except Err bridgeData :=
  match bridge.GlobalExitRootManager with
  | .error e => ([.globalExitRootManager], .error e)
  | .ok a => ([.globalExitRootManager], .ok { GlobalExitRootManager := a })

/-- The read behaviour the chain exhibits at each address, per contract shape:
what a handle resolved at that address returns for each capability read. -/
structure ChainWorld where
  rmAt : Address → rollupManagerContractInterface
  bridgeAt : Address → bridgeContractInterface
  gerAt : Address → gerContractInterface

/-- Trace events of a chain walk: handle resolutions (with the fork and the
address the handle is bound to) and the individual contract reads. -/
inductive ChainCall where
  | resolveRollupManager (fork : Nat) (addr : Address)
  | resolveBridge (fork : Nat) (addr : Address)
  | resolveGER (fork : Nat) (addr : Address)
  | rm (c : RMCall)
  | bridge (c : BridgeCall)
  | ger (c : GERCall)
  deriving DecidableEq, Repr

/-- Outcome of a command function: returned nil, returned an error, exited the
process via `log.Fatal`, hit a Go `panic`, or entered the event-monitor watch
loop with the given ABI and address filter. -/
inductive CmdResult where
  | ok
  | err (e : Err)
  | fatalExit
  | panicked (msg : String)
  | watching (abi : ABIToken) (addresses : List Address)
  deriving DecidableEq, Repr

/-- `gerInspect` (ger.go): parse the cdk args (which dials once), dial again,
parse the rollup-manager args, resolve the rollup manager, assemble the FULL
rollup-manager snapshot, resolve the bridge at the snapshot's `BridgeAddress`,
assemble the bridge data, resolve the GER contract at the bridge's
`GlobalExitRootManager`, assemble the GER snapshot and print it. Any error
returns immediately. The first component is the trace of resolutions and
reads, in order. -/
def gerInspect (dial1 dial2 : Except Err EthClient) (rpcURL : String)
    (forkIDArg : Option String) (rollupManagerAddressArg : String)
    (world : ChainWorld) : List ChainCall × CmdResult :=
  match parseCDKArgs dial1 rpcURL forkIDArg with
  | .fatalExit => ([], .fatalExit)
  | .ok (.error e) => ([], .err e)
  | .ok (.ok cdkArgs) =>
  match mustGetRPCClient dial2 with
  | .fatalExit => ([], .fatalExit)
  | .ok rpcClient =>
  match parseRollupManagerArgs cdkArgs.forkID rollupManagerAddressArg rpcClient with
  | .error e => ([], .err e)
  | .ok rollupManagerArgs =>
  match getRollupManager cdkArgs rpcClient rollupManagerArgs.rollupManagerAddress with
  | .error e => ([], .err e)
  | .ok (rmHandle, _rmABI) =>
    let rmRes := getRollupManagerData (world.rmAt rmHandle.address)
    let tr1 := ChainCall.resolveRollupManager rmHandle.fork rmHandle.address ::
      rmRes.1.map ChainCall.rm
    match rmRes.2 with
    | .error e => (tr1, .err e)
    | .ok rollupManagerData =>
    match getBridge cdkArgs rpcClient rollupManagerData.BridgeAddress with
    | .error e => (tr1, .err e)
    | .ok (bridgeHandle, _bridgeABI) =>
      let brRes := getBridgeData (world.bridgeAt bridgeHandle.address)
      let tr3 := tr1 ++ ChainCall.resolveBridge bridgeHandle.fork bridgeHandle.address ::
        brRes.1.map ChainCall.bridge
      match brRes.2 with
      | .error e => (tr3, .err e)
      | .ok bd =>
      match getGER cdkArgs rpcClient bd.GlobalExitRootManager with
      | .error e => (tr3, .err e)
      | .ok (gerHandle, _gerABI) =>
        let gerRes := getGERData (world.gerAt gerHandle.address)
        let tr5 := tr3 ++ ChainCall.resolveGER gerHandle.fork gerHandle.address ::
          gerRes.1.map ChainCall.ger
        match gerRes.2 with
        | .error e => (tr5, .err e)
        | .ok _data => (tr5, .ok)

/-- `gerDumpData` (ger.go): the wrapper record the dump command prints, holding
the assembled GER snapshot under the `data` key. -/
structure gerDumpData where
  Data : gerData
  deriving DecidableEq, Repr

/-- `gerDump` (ger.go): the identical chain walk to `gerInspect` — including
the full rollup-manager and bridge snapshot assemblies used for discovery —
differing only in that the assembled GER snapshot is printed wrapped in
`gerDumpData`; the calls issued and the control flow are the same. -/
def gerDump (dial1 dial2 : Except Err EthClient) (rpcURL : String)
    (forkIDArg : Option String) (rollupManagerAddressArg : String)
    (world : ChainWorld) : List ChainCall × CmdResult :=
  match parseCDKArgs dial1 rpcURL forkIDArg with
  | .fatalExit => ([], .fatalExit)
  | .ok (.error e) => ([], .err e)
  | .ok (.ok cdkArgs) =>
  match mustGetRPCClient dial2 with
  | .fatalExit => ([], .fatalExit)
  | .ok rpcClient =>
  match parseRollupManagerArgs cdkArgs.forkID rollupManagerAddressArg rpcClient with
  | .error e => ([], .err e)
  | .ok rollupManagerArgs =>
  match getRollupManager cdkArgs rpcClient rollupManagerArgs.rollupManagerAddress with
  | .error e => ([], .err e)
  | .ok (rmHandle, _rmABI) =>
    let rmRes := getRollupManagerData (world.rmAt rmHandle.address)
    let tr1 := ChainCall.resolveRollupManager rmHandle.fork rmHandle.address ::
      rmRes.1.map ChainCall.rm
    match rmRes.2 with
    | .error e => (tr1, .err e)
    | .ok rollupManagerData =>
    match getBridge cdkArgs rpcClient rollupManagerData.BridgeAddress with
    | .error e => (tr1, .err e)
    | .ok (bridgeHandle, _bridgeABI) =>
      let brRes := getBridgeData (world.bridgeAt bridgeHandle.address)
      let tr3 := tr1 ++ ChainCall.resolveBridge bridgeHandle.fork bridgeHandle.address ::
        brRes.1.map ChainCall.bridge
      match brRes.2 with
      | .error e => (tr3, .err e)
      | .ok bd =>
      match getGER cdkArgs rpcClient bd.GlobalExitRootManager with
      | .error e => (tr3, .err e)
      | .ok (gerHandle, _gerABI) =>
        let gerRes := getGERData (world.gerAt gerHandle.address)
        let tr5 := tr3 ++ ChainCall.resolveGER gerHandle.fork gerHandle.address ::
          gerRes.1.map ChainCall.ger
        match gerRes.2 with
        | .error e => (tr5, .err e)
        | .ok d =>
          let _printed : gerDumpData := { Data := d }
          (tr5, .ok)

/-- `gerMonitor` (ger.go): the same chain walk as `gerInspect` up to resolving
the GER handle — including the full rollup-manager and bridge snapshot
assemblies — then builds the `customFilter` holding the GER ABI and the
address filter `[bridgeData.GlobalExitRootManager]` and hands it to
`watchNewLogs`; the `.watching` outcome marks that the watch was entered with
that filter. -/
def gerMonitor (dial1 dial2 : Except Err EthClient) (rpcURL : String)
    (forkIDArg : Option String) (rollupManagerAddressArg : String)
    (world : ChainWorld) : List ChainCall × CmdResult :=
  match parseCDKArgs dial1 rpcURL forkIDArg with
  | .fatalExit => ([], .fatalExit)
  | .ok (.error e) => ([], .err e)
  | .ok (.ok cdkArgs) =>
  match mustGetRPCClient dial2 with
  | .fatalExit => ([], .fatalExit)
  | .ok rpcClient =>
  match parseRollupManagerArgs cdkArgs.forkID rollupManagerAddressArg rpcClient with
  | .error e => ([], .err e)
  | .ok rollupManagerArgs =>
  match getRollupManager cdkArgs rpcClient rollupManagerArgs.rollupManagerAddress with
  | .error e => ([], .err e)
  | .ok (rmHandle, _rmABI) =>
    let rmRes := getRollupManagerData (world.rmAt rmHandle.address)
    let tr1 := ChainCall.resolveRollupManager rmHandle.fork rmHandle.address ::
      rmRes.1.map ChainCall.rm
    match rmRes.2 with
    | .error e => (tr1, .err e)
    | .ok rollupManagerData =>
    match getBridge cdkArgs rpcClient rollupManagerData.BridgeAddress with
    | .error e => (tr1, .err e)
    | .ok (bridgeHandle, _bridgeABI) =>
      let brRes := getBridgeData (world.bridgeAt bridgeHandle.address)
      let tr3 := tr1 ++ ChainCall.resolveBridge bridgeHandle.fork bridgeHandle.address ::
        brRes.1.map ChainCall.bridge
      match brRes.2 with
      | .error e => (tr3, .err e)
      | .ok bd =>
      match getGER cdkArgs rpcClient bd.GlobalExitRootManager with
      | .error e => (tr3, .err e)
      | .ok (gerHandle, gerABI) =>
        let tr4 := tr3 ++ [ChainCall.resolveGER gerHandle.fork gerHandle.address]
        (tr4, .watching gerABI [bd.GlobalExitRootManager])

/-- `rollupManagerMonitor` (rollupManager.go): the body is the single
unconditional statement `panic("not implemented")` — no parsing, no
resolution, no watch. -/
def rollupManagerMonitor (_cmd : Unit) : List ChainCall × CmdResult :=
  ([], .panicked "not implemented")

/-! ## Trace projections -/

def isResolveEvent : ChainCall → Bool
  | .resolveRollupManager _ _ => true
  | .resolveBridge _ _ => true
  | .resolveGER _ _ => true
  | _ => false

/-- The handle resolutions recorded in a trace, in order. -/
def resolveEvents (t : List ChainCall) : List ChainCall := t.filter isResolveEvent

/-- The rollup-manager reads recorded in a trace, in order. -/
def rmReadCalls (t : List ChainCall) : List RMCall :=
  t.filterMap fun c => match c with | .rm r => some r | _ => none

@[simp] theorem resolveEvents_nil : resolveEvents [] = [] := rfl

@[simp] theorem resolveEvents_append (a b : List ChainCall) :
    resolveEvents (a ++ b) = resolveEvents a ++ resolveEvents b := by
  simp [resolveEvents]

@[simp] theorem resolveEvents_cons_rm (r : RMCall) (t : List ChainCall) :
    resolveEvents (ChainCall.rm r :: t) = resolveEvents t := rfl

@[simp] theorem resolveEvents_cons_bridge (c : BridgeCall) (t : List ChainCall) :
    resolveEvents (ChainCall.bridge c :: t) = resolveEvents t := rfl

@[simp] theorem resolveEvents_cons_ger (c : GERCall) (t : List ChainCall) :
    resolveEvents (ChainCall.ger c :: t) = resolveEvents t := rfl

@[simp] theorem resolveEvents_cons_resolveRollupManager (f : Nat) (a : Address)
    (t : List ChainCall) :
    resolveEvents (ChainCall.resolveRollupManager f a :: t) =
      ChainCall.resolveRollupManager f a :: resolveEvents t := rfl

@[simp] theorem resolveEvents_cons_resolveBridge (f : Nat) (a : Address)
    (t : List ChainCall) :
    resolveEvents (ChainCall.resolveBridge f a :: t) =
      ChainCall.resolveBridge f a :: resolveEvents t := rfl

@[simp] theorem resolveEvents_cons_resolveGER (f : Nat) (a : Address)
    (t : List ChainCall) :
    resolveEvents (ChainCall.resolveGER f a :: t) =
      ChainCall.resolveGER f a :: resolveEvents t := rfl

@[simp] theorem resolveEvents_map_rm (l : List RMCall) :
    resolveEvents (l.map ChainCall.rm) = [] := by
  induction l with
  | nil => rfl
  | cons h t ih => simpa using ih

@[simp] theorem resolveEvents_map_bridge (l : List BridgeCall) :
    resolveEvents (l.map ChainCall.bridge) = [] := by
  induction l with
  | nil => rfl
  | cons h t ih => simpa using ih

@[simp] theorem resolveEvents_map_ger (l : List GERCall) :
    resolveEvents (l.map ChainCall.ger) = [] := by
  induction l with
  | nil => rfl
  | cons h t ih => simpa using ih

@[simp] theorem rmReadCalls_nil : rmReadCalls [] = [] := rfl

@[simp] theorem rmReadCalls_append (a b : List ChainCall) :
    rmReadCalls (a ++ b) = rmReadCalls a ++ rmReadCalls b := by
  simp [rmReadCalls]

@[simp] theorem rmReadCalls_cons_rm (r : RMCall) (t : List ChainCall) :
    rmReadCalls (ChainCall.rm r :: t) = r :: rmReadCalls t := rfl

@[simp] theorem rmReadCalls_cons_bridge (c : BridgeCall) (t : List ChainCall) :
    rmReadCalls (ChainCall.bridge c :: t) = rmReadCalls t := rfl

@[simp] theorem rmReadCalls_cons_ger (c : GERCall) (t : List ChainCall) :
    rmReadCalls (ChainCall.ger c :: t) = rmReadCalls t := rfl

@[simp] theorem rmReadCalls_cons_resolveRollupManager (f : Nat) (a : Address)
    (t : List ChainCall) :
    rmReadCalls (ChainCall.resolveRollupManager f a :: t) = rmReadCalls t := rfl

@[simp] theorem rmReadCalls_cons_resolveBridge (f : Nat) (a : Address)
    (t : List ChainCall) :
    rmReadCalls (ChainCall.resolveBridge f a :: t) = rmReadCalls t := rfl

@[simp] theorem rmReadCalls_cons_resolveGER (f : Nat) (a : Address)
    (t : List ChainCall) :
    rmReadCalls (ChainCall.resolveGER f a :: t) = rmReadCalls t := rfl

@[simp] theorem rmReadCalls_map_rm (l : List RMCall) :
    rmReadCalls (l.map ChainCall.rm) = l := by
  induction l with
  | nil => rfl
  | cons h t ih => simpa using ih

@[simp] theorem rmReadCalls_map_bridge (l : List BridgeCall) :
    rmReadCalls (l.map ChainCall.bridge) = [] := by
  induction l with
  | nil => rfl
  | cons h t ih => simpa using ih

@[simp] theorem rmReadCalls_map_ger (l : List GERCall) :
    rmReadCalls (l.map ChainCall.ger) = [] := by
  induction l with
  | nil => rfl
  | cons h t ih => simpa using ih

/-- The bridge reads recorded in a trace, in order. -/
def bridgeReadCalls (t : List ChainCall) : List BridgeCall :=
  t.filterMap fun c => match c with | .bridge r => some r | _ => none

@[simp] theorem bridgeReadCalls_nil : bridgeReadCalls [] = [] := rfl

@[simp] theorem bridgeReadCalls_append (a b : List ChainCall) :
    bridgeReadCalls (a ++ b) = bridgeReadCalls a ++ bridgeReadCalls b := by
  simp [bridgeReadCalls]

@[simp] theorem bridgeReadCalls_cons_rm (r : RMCall) (t : List ChainCall) :
    bridgeReadCalls (ChainCall.rm r :: t) = bridgeReadCalls t := rfl

@[simp] theorem bridgeReadCalls_cons_bridge (c : BridgeCall) (t : List ChainCall) :
    bridgeReadCalls (ChainCall.bridge c :: t) = c :: bridgeReadCalls t := rfl

@[simp] theorem bridgeReadCalls_cons_ger (c : GERCall) (t : List ChainCall) :
    bridgeReadCalls (ChainCall.ger c :: t) = bridgeReadCalls t := rfl

@[simp] theorem bridgeReadCalls_cons_resolveRollupManager (f : Nat) (a : Address)
    (t : List ChainCall) :
    bridgeReadCalls (ChainCall.resolveRollupManager f a :: t) = bridgeReadCalls t := rfl

@[simp] theorem bridgeReadCalls_cons_resolveBridge (f : Nat) (a : Address)
    (t : List ChainCall) :
    bridgeReadCalls (ChainCall.resolveBridge f a :: t) = bridgeReadCalls t := rfl

@[simp] theorem bridgeReadCalls_cons_resolveGER (f : Nat) (a : Address)
    (t : List ChainCall) :
    bridgeReadCalls (ChainCall.resolveGER f a :: t) = bridgeReadCalls t := rfl

@[simp] theorem bridgeReadCalls_map_rm (l : List RMCall) :
    bridgeReadCalls (l.map ChainCall.rm) = [] := by
  induction l with
  | nil => rfl
  | cons h t ih => simpa using ih

@[simp] theorem bridgeReadCalls_map_bridge (l : List BridgeCall) :
    bridgeReadCalls (l.map ChainCall.bridge) = l := by
  induction l with
  | nil => rfl
  | cons h t ih => simpa using ih

@[simp] theorem bridgeReadCalls_map_ger (l : List GERCall) :
    bridgeReadCalls (l.map ChainCall.ger) = [] := by
  induction l with
  | nil => rfl
  | cons h t ih => simpa using ih

/-- Whatever the read outcome, `getBridgeData` issues exactly its one modelled
read. -/
theorem getBridgeData_trace (b : bridgeContractInterface) :
    (getBridgeData b).1 = [BridgeCall.globalExitRootManager] := by
  obtain ⟨g⟩ := b
  unfold getBridgeData
  cases g <;> rfl

/-! ## Reduction lemmas for the argument-parsing and resolution prefix -/

theorem parseCDKArgs_known (rpcURL s : String) (fk : Nat)
    (hks : knownForks s = some fk) :
    parseCDKArgs (Except.ok ()) rpcURL (some s) =
      MustOutcome.ok (Except.ok { rpcURL := rpcURL, rpcClient := (), forkID := fk }) := by
  have hlen : 0 < s.length := knownForks_nonempty hks
  simp only [parseCDKArgs, mustGetRPCClient]
  rw [if_pos hlen, hks]

theorem parseRollupManagerArgs_supported (fk : Nat) (aArg : String) (c : EthClient)
    (hsf : supportedFork fk = true)
    (hka : knownRollupManagerAddresses aArg = none)
    (hha : isHexAddress aArg = true) :
    parseRollupManagerArgs fk aArg c =
      Except.ok { rollupManager := some { fork := fk, address := hexToAddress aArg },
                  rollupManagerAddress := hexToAddress aArg } := by
  have hsf3 : fk = 7 ∨ fk = 9 ∨ fk = 12 := by
    simp [supportedFork, etrog, elderberry, banana] at hsf
    tauto
  simp only [parseRollupManagerArgs, checkAddressArg, hka, hha, if_true]
  rcases hsf3 with h | h | h <;> subst h <;> simp [etrog, elderberry, banana]

theorem getRollupManager_supported (cdkArgs : parsedCDKArgs) (c : EthClient)
    (addr : Address) (h : supportedFork cdkArgs.forkID = true) :
    getRollupManager cdkArgs c addr =
      Except.ok ({ fork := cdkArgs.forkID, address := addr },
        (rollupManagerKind, cdkArgs.forkID)) := by
  simp [getRollupManager, h]

theorem getBridge_supported (cdkArgs : parsedCDKArgs) (c : EthClient)
    (addr : Address) (h : supportedFork cdkArgs.forkID = true) :
    getBridge cdkArgs c addr =
      Except.ok ({ fork := cdkArgs.forkID, address := addr },
        (bridgeKind, cdkArgs.forkID)) := by
  simp [getBridge, h]

theorem getGER_supported (cdkArgs : parsedCDKArgs) (c : EthClient)
    (addr : Address) (h : supportedFork cdkArgs.forkID = true) :
    getGER cdkArgs c addr =
      Except.ok ({ fork := cdkArgs.forkID, address := addr },
        (gerKind, cdkArgs.forkID)) := by
  simp [getGER, h]

/-- The fixed order of the eight reads `getRollupManagerData` issues. -/
def rmFullCallList : List RMCall :=
  [.pol, .bridgeAddress, .rollupCount, .getBatchFee, .totalSequencedBatches,
   .totalVerifiedBatches, .lastAggregationTimestamp,
   .lastDeactivatedEmergencyStateTimestamp]

theorem getRollupManagerData_ok_trace (rm : rollupManagerContractInterface)
    (d : RollupManagerData) (h : (getRollupManagerData rm).2 = Except.ok d) :
    (getRollupManagerData rm).1 = rmFullCallList := by
  obtain ⟨p, b, c, bf, s, v, a, dd, tc, r1, r2, r3, r4⟩ := rm
  unfold getRollupManagerData at h ⊢
  cases p <;> cases b <;> cases c <;> cases bf <;> cases s <;> cases v <;> cases a <;>
    cases dd <;> simp_all [rmFullCallList]

/-- The GER snapshot assembled from `gerStubOk`. -/
def gerStubOkData : gerData :=
  { BridgeAddress := 187, DepositCount := 3, GetLastGlobalExitRoot := 7, Root := 8,
    LastMainnetExitRoot := 9, LastRollupExitRoot := 11, RollupManager := 161 }

/-- A fully healthy world: every read succeeds; the rollup manager reports
bridge address 187 wherever it is read, and the bridge reports
global-exit-root-manager address 204. -/
def stubWorld : ChainWorld :=
  { rmAt := fun _ => rmStubOk
    bridgeAt := fun _ => { GlobalExitRootManager := .ok 204 }
    gerAt := fun _ => gerStubOk }

/-! ## C9 — a dial failure terminates the process, it is never a returned
error -/

/-- C9: if dialing the RPC endpoint fails, `mustGetRPCClient` terminates the
whole process via `log.Fatal` instead of returning an error, so no caller —
`parseCDKArgs`, or a command function dialing directly (shown on `gerInspect`
and `gerMonitor` for both dial sites) — ever observes an RPC-dial failure as a
returned error value. -/
theorem dial_failure_never_returned_as_error (e : Err) (rpcURL : String)
    (forkIDArg : Option String) (addrArg : String) (dial2 : Except Err EthClient)
    (world : ChainWorld) :
    mustGetRPCClient (Except.error e) = MustOutcome.fatalExit ∧
    parseCDKArgs (Except.error e) rpcURL forkIDArg = MustOutcome.fatalExit ∧
    gerInspect (Except.error e) dial2 rpcURL forkIDArg addrArg world =
      ([], CmdResult.fatalExit) ∧
    gerMonitor (Except.error e) dial2 rpcURL forkIDArg addrArg world =
      ([], CmdResult.fatalExit) ∧
    gerInspect (Except.ok ()) (Except.error e) rpcURL none addrArg world =
      ([], CmdResult.fatalExit) ∧
    gerMonitor (Except.ok ()) (Except.error e) rpcURL none addrArg world =
      ([], CmdResult.fatalExit) :=
  ⟨rfl, rfl, rfl, rfl, rfl, rfl⟩

/-! ## C2 — unsupported fork resolution -/

/-- C2 (code bug): an empty fork-id string slips past `parseCDKArgs` (its
validation runs only on non-empty strings), leaving `forkID = 0`; 0 is outside
the supported set of the `parseRollupManagerArgs` switch, which has no default
case, so the call returns a nil error together with a `parsedRollupManagerArgs`
whose `rollupManager` binding is nil — a partially-usable handle on which every
capability operation would dereference a nil interface — instead of the
resolution error the claim requires. -/
theorem empty_forkid_yields_nil_rollup_manager_binding :
    parseCDKArgs (Except.ok ()) "http://localhost:8545" (some "") =
      MustOutcome.ok (Except.ok
        { rpcURL := "http://localhost:8545", rpcClient := (), forkID := 0 }) ∧
    supportedFork 0 = false ∧
    parseRollupManagerArgs 0 "0x5132a183e9f3cb7c848b0aac5ae0c4f0491b7ab2" () =
      Except.ok
        { rollupManager := none,
          rollupManagerAddress :=
            hexToAddress "0x5132a183e9f3cb7c848b0aac5ae0c4f0491b7ab2" } :=
  ⟨rfl, rfl, rfl⟩

/-! ## C3 — discovery steps are full snapshot assemblies, not targeted reads -/

/-- C3 counterexample: in a concrete all-healthy world, the monitor command
`gerMonitor` discovers the bridge by running the FULL eight-read rollup-manager
snapshot assembly — not by reading only the bridge-address field — although the
caller requested neither an inspect nor a dump of the rollup manager. -/
theorem ger_monitor_discovery_reads_full_snapshot :
    rmReadCalls (gerMonitor (Except.ok ()) (Except.ok ()) "http://localhost:8545"
        (some "banana") "0x5132a183e9f3cb7c848b0aac5ae0c4f0491b7ab2" stubWorld).1 =
      rmFullCallList ∧
    rmFullCallList ≠ [RMCall.bridgeAddress] ∧
    (gerMonitor (Except.ok ()) (Except.ok ()) "http://localhost:8545"
        (some "banana") "0x5132a183e9f3cb7c848b0aac5ae0c4f0491b7ab2" stubWorld).2 =
      CmdResult.watching (gerKind, banana) [204] :=
  ⟨rfl, by decide, rfl⟩

/-- C3 (amended): each discovery step of the chain walk goes through a full
snapshot assembly and extracts the needed address field from the resulting
record, in all three GER commands: `gerInspect`, `gerDump` and `gerMonitor`
each discover the bridge by running the full eight-read `getRollupManagerData`
assembly and using its `BridgeAddress` field, and each discover the GER
manager by running the `getBridgeData` assembler and using its
`GlobalExitRootManager` field — the monitor command included, although it
requests no inspect or dump. -/
theorem discovery_via_full_assembly
    (world : ChainWorld) (s aArg rpcURL : String) (fk : Nat)
    (d : RollupManagerData) (bd : bridgeData) (gd : gerData)
    (hks : knownForks s = some fk)
    (hka : knownRollupManagerAddresses aArg = none)
    (hha : isHexAddress aArg = true)
    (h1 : (getRollupManagerData (world.rmAt (hexToAddress aArg))).2 = Except.ok d)
    (h2 : (getBridgeData (world.bridgeAt d.BridgeAddress)).2 = Except.ok bd)
    (h3 : (getGERData (world.gerAt bd.GlobalExitRootManager)).2 = Except.ok gd) :
    (rmReadCalls (gerInspect (Except.ok ()) (Except.ok ()) rpcURL (some s) aArg world).1 =
        rmFullCallList ∧
      bridgeReadCalls
          (gerInspect (Except.ok ()) (Except.ok ()) rpcURL (some s) aArg world).1 =
        [BridgeCall.globalExitRootManager] ∧
      (gerInspect (Except.ok ()) (Except.ok ()) rpcURL (some s) aArg world).2 =
        CmdResult.ok) ∧
    (rmReadCalls (gerDump (Except.ok ()) (Except.ok ()) rpcURL (some s) aArg world).1 =
        rmFullCallList ∧
      bridgeReadCalls
          (gerDump (Except.ok ()) (Except.ok ()) rpcURL (some s) aArg world).1 =
        [BridgeCall.globalExitRootManager] ∧
      (gerDump (Except.ok ()) (Except.ok ()) rpcURL (some s) aArg world).2 =
        CmdResult.ok) ∧
    (rmReadCalls (gerMonitor (Except.ok ()) (Except.ok ()) rpcURL (some s) aArg world).1 =
        rmFullCallList ∧
      bridgeReadCalls
          (gerMonitor (Except.ok ()) (Except.ok ()) rpcURL (some s) aArg world).1 =
        [BridgeCall.globalExitRootManager] ∧
      (gerMonitor (Except.ok ()) (Except.ok ()) rpcURL (some s) aArg world).2 =
        CmdResult.watching (gerKind, fk) [bd.GlobalExitRootManager]) := by
  have hsf := knownForks_supported hks
  have htr := getRollupManagerData_ok_trace (world.rmAt (hexToAddress aArg)) d h1
  have hbtr := getBridgeData_trace (world.bridgeAt d.BridgeAddress)
  have hRM := getRollupManager_supported
    { rpcURL := rpcURL, rpcClient := (), forkID := fk } () (hexToAddress aArg) hsf
  have hBR := getBridge_supported
    { rpcURL := rpcURL, rpcClient := (), forkID := fk } () d.BridgeAddress hsf
  have hGER := getGER_supported
    { rpcURL := rpcURL, rpcClient := (), forkID := fk } () bd.GlobalExitRootManager hsf
  refine ⟨⟨?_, ?_, ?_⟩, ⟨?_, ?_, ?_⟩, ⟨?_, ?_, ?_⟩⟩ <;>
    simp [gerInspect, gerDump, gerMonitor, parseCDKArgs_known rpcURL s fk hks,
      mustGetRPCClient, parseRollupManagerArgs_supported fk aArg () hsf hka hha,
      hRM, h1, htr, hbtr, hBR, h2, hGER, h3]

/-- C3 witness: the amended statement evaluated in the concrete healthy
world, for all three GER commands. -/
theorem discovery_via_full_assembly_witness :
    (rmReadCalls (gerInspect (Except.ok ()) (Except.ok ()) "u" (some "12")
        "0xe2ef6215adc132df6913c8dd16487abf118d1764" stubWorld).1 = rmFullCallList ∧
      bridgeReadCalls (gerInspect (Except.ok ()) (Except.ok ()) "u" (some "12")
        "0xe2ef6215adc132df6913c8dd16487abf118d1764" stubWorld).1 =
        [BridgeCall.globalExitRootManager] ∧
      (gerInspect (Except.ok ()) (Except.ok ()) "u" (some "12")
        "0xe2ef6215adc132df6913c8dd16487abf118d1764" stubWorld).2 = CmdResult.ok) ∧
    (rmReadCalls (gerDump (Except.ok ()) (Except.ok ()) "u" (some "12")
        "0xe2ef6215adc132df6913c8dd16487abf118d1764" stubWorld).1 = rmFullCallList ∧
      bridgeReadCalls (gerDump (Except.ok ()) (Except.ok ()) "u" (some "12")
        "0xe2ef6215adc132df6913c8dd16487abf118d1764" stubWorld).1 =
        [BridgeCall.globalExitRootManager] ∧
      (gerDump (Except.ok ()) (Except.ok ()) "u" (some "12")
        "0xe2ef6215adc132df6913c8dd16487abf118d1764" stubWorld).2 = CmdResult.ok) ∧
    (rmReadCalls (gerMonitor (Except.ok ()) (Except.ok ()) "u" (some "12")
        "0xe2ef6215adc132df6913c8dd16487abf118d1764" stubWorld).1 = rmFullCallList ∧
      bridgeReadCalls (gerMonitor (Except.ok ()) (Except.ok ()) "u" (some "12")
        "0xe2ef6215adc132df6913c8dd16487abf118d1764" stubWorld).1 =
        [BridgeCall.globalExitRootManager] ∧
      (gerMonitor (Except.ok ()) (Except.ok ()) "u" (some "12")
        "0xe2ef6215adc132df6913c8dd16487abf118d1764" stubWorld).2 =
        CmdResult.watching (gerKind, banana) [204]) := by
  have h := discovery_via_full_assembly stubWorld "12"
    "0xe2ef6215adc132df6913c8dd16487abf118d1764" "u" banana
    { Pol := 161, BridgeAddress := 187, RollupCount := 2, BatchFee := 5,
      TotalSequencedBatches := 10, TotalVerifiedBatches := 9,
      LastAggregationTimestamp := 100, LastDeactivatedEmergencyStateTimestamp := 50 }
    { GlobalExitRootManager := 204 } gerStubOkData rfl rfl rfl rfl rfl rfl
  simpa using h

/-! ## C6 — monitor commands and the watch -/

/-- C6 counterexample: the rollup-manager monitor command aborts
unconditionally — its entire body is the Go statement
`panic("not implemented")` — so it resolves no handle chain and never hands
anything to the event monitor, refuting the claim that every monitor command
proceeds to the watch. -/
theorem rollup_manager_monitor_panics :
    rollupManagerMonitor () = ([], CmdResult.panicked "not implemented") := rfl

/-- C6 (amended): the GER monitor command resolves the contract handle chain
and hands the resolved GER handle (its ABI and its address as the filter) to
the event-monitor watch; the rollup-manager monitor command, by contrast, is
not implemented and panics unconditionally before any resolution or watch. -/
theorem ger_monitor_reaches_watch
    (world : ChainWorld) (s aArg rpcURL : String) (fk : Nat)
    (d : RollupManagerData) (bd : bridgeData)
    (hks : knownForks s = some fk)
    (hka : knownRollupManagerAddresses aArg = none)
    (hha : isHexAddress aArg = true)
    (h1 : (getRollupManagerData (world.rmAt (hexToAddress aArg))).2 = Except.ok d)
    (h2 : (getBridgeData (world.bridgeAt d.BridgeAddress)).2 = Except.ok bd) :
    (gerMonitor (Except.ok ()) (Except.ok ()) rpcURL (some s) aArg world).2 =
      CmdResult.watching (gerKind, fk) [bd.GlobalExitRootManager] ∧
    rollupManagerMonitor () = ([], CmdResult.panicked "not implemented") := by
  have hsf := knownForks_supported hks
  have hRM := getRollupManager_supported
    { rpcURL := rpcURL, rpcClient := (), forkID := fk } () (hexToAddress aArg) hsf
  have hBR := getBridge_supported
    { rpcURL := rpcURL, rpcClient := (), forkID := fk } () d.BridgeAddress hsf
  have hGER := getGER_supported
    { rpcURL := rpcURL, rpcClient := (), forkID := fk } () bd.GlobalExitRootManager hsf
  refine ⟨?_, rfl⟩
  simp only [gerMonitor, parseCDKArgs_known rpcURL s fk hks, mustGetRPCClient,
    parseRollupManagerArgs_supported fk aArg () hsf hka hha, hRM, h1, hBR, h2, hGER]

/-- C6 witness: the amended statement evaluated in the concrete healthy
world. -/
theorem ger_monitor_reaches_watch_witness :
    (gerMonitor (Except.ok ()) (Except.ok ()) "u" (some "banana")
        "0x32d33D5137a7cFFb54c5Bf8371172bcEc5f310ff" stubWorld).2 =
      CmdResult.watching (gerKind, banana) [204] ∧
    rollupManagerMonitor () = ([], CmdResult.panicked "not implemented") := by
  have h := ger_monitor_reaches_watch stubWorld "banana"
    "0x32d33D5137a7cFFb54c5Bf8371172bcEc5f310ff" "u" banana
    { Pol := 161, BridgeAddress := 187, RollupCount := 2, BatchFee := 5,
      TotalSequencedBatches := 10, TotalVerifiedBatches := 9,
      LastAggregationTimestamp := 100, LastDeactivatedEmergencyStateTimestamp := 50 }
    { GlobalExitRootManager := 204 } rfl rfl rfl rfl rfl
  simpa using h

/-! ## C7 — dependent addresses come from the reported fields only -/

/-- C7: on every successful chain walk the bridge handle is resolved at
exactly the `BridgeAddress` the rollup manager reported and the GER handle at
exactly the `GlobalExitRootManager` the bridge reported — the trace's
resolution events are precisely those three, so no other address source is
consulted — and any discovery-step read failure aborts the whole walk
surfacing that step's error. -/
theorem chain_walk_addresses_from_reported_fields
    (s aArg rpcURL : String) (fk : Nat)
    (hks : knownForks s = some fk)
    (hka : knownRollupManagerAddresses aArg = none)
    (hha : isHexAddress aArg = true) :
    (∀ (world : ChainWorld) (d : RollupManagerData) (bd : bridgeData) (gd : gerData),
      (getRollupManagerData (world.rmAt (hexToAddress aArg))).2 = Except.ok d →
      (getBridgeData (world.bridgeAt d.BridgeAddress)).2 = Except.ok bd →
      (getGERData (world.gerAt bd.GlobalExitRootManager)).2 = Except.ok gd →
      (gerInspect (Except.ok ()) (Except.ok ()) rpcURL (some s) aArg world).2 =
        CmdResult.ok ∧
      resolveEvents
          (gerInspect (Except.ok ()) (Except.ok ()) rpcURL (some s) aArg world).1 =
        [ChainCall.resolveRollupManager fk (hexToAddress aArg),
         ChainCall.resolveBridge fk d.BridgeAddress,
         ChainCall.resolveGER fk bd.GlobalExitRootManager]) ∧
    (∀ (world : ChainWorld) (e : Err),
      (getRollupManagerData (world.rmAt (hexToAddress aArg))).2 = Except.error e →
      (gerInspect (Except.ok ()) (Except.ok ()) rpcURL (some s) aArg world).2 =
        CmdResult.err e) ∧
    (∀ (world : ChainWorld) (d : RollupManagerData) (e : Err),
      (getRollupManagerData (world.rmAt (hexToAddress aArg))).2 = Except.ok d →
      (getBridgeData (world.bridgeAt d.BridgeAddress)).2 = Except.error e →
      (gerInspect (Except.ok ()) (Except.ok ()) rpcURL (some s) aArg world).2 =
        CmdResult.err e) ∧
    (∀ (world : ChainWorld) (d : RollupManagerData) (bd : bridgeData) (e : Err),
      (getRollupManagerData (world.rmAt (hexToAddress aArg))).2 = Except.ok d →
      (getBridgeData (world.bridgeAt d.BridgeAddress)).2 = Except.ok bd →
      (getGERData (world.gerAt bd.GlobalExitRootManager)).2 = Except.error e →
      (gerInspect (Except.ok ()) (Except.ok ()) rpcURL (some s) aArg world).2 =
        CmdResult.err e) := by
  have hsf := knownForks_supported hks
  have hRM := getRollupManager_supported
    { rpcURL := rpcURL, rpcClient := (), forkID := fk } () (hexToAddress aArg) hsf
  refine ⟨?_, ?_, ?_, ?_⟩
  · intro world d bd gd h1 h2 h3
    have hBR := getBridge_supported
      { rpcURL := rpcURL, rpcClient := (), forkID := fk } () d.BridgeAddress hsf
    have hGER := getGER_supported
      { rpcURL := rpcURL, rpcClient := (), forkID := fk } () bd.GlobalExitRootManager hsf
    constructor <;>
      simp [gerInspect, parseCDKArgs_known rpcURL s fk hks, mustGetRPCClient,
        parseRollupManagerArgs_supported fk aArg () hsf hka hha,
        hRM, h1, hBR, h2, hGER, h3]
  · intro world e h1
    simp only [gerInspect, parseCDKArgs_known rpcURL s fk hks, mustGetRPCClient,
      parseRollupManagerArgs_supported fk aArg () hsf hka hha, hRM, h1]
  · intro world d e h1 h2
    have hBR := getBridge_supported
      { rpcURL := rpcURL, rpcClient := (), forkID := fk } () d.BridgeAddress hsf
    simp only [gerInspect, parseCDKArgs_known rpcURL s fk hks, mustGetRPCClient,
      parseRollupManagerArgs_supported fk aArg () hsf hka hha, hRM, h1, hBR, h2]
  · intro world d bd e h1 h2 h3
    have hBR := getBridge_supported
      { rpcURL := rpcURL, rpcClient := (), forkID := fk } () d.BridgeAddress hsf
    have hGER := getGER_supported
      { rpcURL := rpcURL, rpcClient := (), forkID := fk } () bd.GlobalExitRootManager hsf
    simp only [gerInspect, parseCDKArgs_known rpcURL s fk hks, mustGetRPCClient,
      parseRollupManagerArgs_supported fk aArg () hsf hka hha, hRM, h1, hBR, h2, hGER, h3]

/-- C7 witness: the end-to-end scenario with fork "banana" in the concrete
healthy world — the bridge handle is resolved at the rollup manager's reported
bridge address 187 and the GER handle at the bridge's reported address 204,
with no other resolution event. -/
theorem chain_walk_addresses_from_reported_fields_witness :
    (gerInspect (Except.ok ()) (Except.ok ()) "u" (some "banana")
        "0x5132a183e9f3cb7c848b0aac5ae0c4f0491b7ab2" stubWorld).2 = CmdResult.ok ∧
    resolveEvents (gerInspect (Except.ok ()) (Except.ok ()) "u" (some "banana")
        "0x5132a183e9f3cb7c848b0aac5ae0c4f0491b7ab2" stubWorld).1 =
      [ChainCall.resolveRollupManager banana
          (hexToAddress "0x5132a183e9f3cb7c848b0aac5ae0c4f0491b7ab2"),
       ChainCall.resolveBridge banana 187,
       ChainCall.resolveGER banana 204] := by
  have h := (chain_walk_addresses_from_reported_fields "banana"
      "0x5132a183e9f3cb7c848b0aac5ae0c4f0491b7ab2" "u" banana rfl rfl rfl).1
    stubWorld
    { Pol := 161, BridgeAddress := 187, RollupCount := 2, BatchFee := 5,
      TotalSequencedBatches := 10, TotalVerifiedBatches := 9,
      LastAggregationTimestamp := 100, LastDeactivatedEmergencyStateTimestamp := 50 }
    { GlobalExitRootManager := 204 } gerStubOkData rfl rfl rfl
  simpa using h

/-! ## C8 — event decoding policy of the watch loop -/

/-- A decoded event: name, emitting address, chain position, and the mapping
from argument name to decoded value. -/
structure DecodedEvent where
  name : String
  address : Address
  blockNumber : Nat
  logIndex : Nat
  args : List (String × Nat)
  deriving DecidableEq, Repr

/-- A raw log entry as delivered by the transport. -/
structure RawLog where
  address : Address
  topic : Nat
  data : List Nat
  blockNumber : Nat
  logIndex : Nat
  deriving DecidableEq, Repr

/-- Modelled from the spec: the ABI definition carried by a resolved handle for
generic event decoding — which topic signatures it knows, and the structural
decoder for a raw log (`none` when the entry's structure fails to decode
against the expected argument types). -/
structure ContractABIModel where
  knownTopic : Nat → Bool
  decodeLog : RawLog → Option DecodedEvent

/-- Modelled from the spec: `customFilter` (its source file is not under src/)
— the resolved handle's ABI plus the address filter handed to `watchNewLogs`;
the `contractInstance` reflection value is consumed by no claim and is
omitted. -/
structure customFilter where
  contractABI : ContractABIModel
  addresses : List Address

/-- Modelled from the spec: the per-entry decode policy of `watchNewLogs`
(§4.4, not under src/): an entry matching the address filter whose topic
matches no ABI event is skipped silently (`none`); an entry with a known topic
whose structure fails to decode is a decode error for that entry; a valid
entry with a known topic yields the decoded event. -/
def processLog (filter : customFilter) (l : RawLog) :
    Option (Except RawLog DecodedEvent) :=
  if l.address ∈ filter.addresses then
    if filter.contractABI.knownTopic l.topic then
      match filter.contractABI.decodeLog l with
      | some ev => some (.ok ev)
      | none => some (.error l)
    else none
  else none

/-- Modelled from the spec: the watch loop of `watchNewLogs` over the sequence
of log entries the transport delivers (a finite prefix of the infinite watch):
decoded events are yielded in arrival order and decode errors are reported
per-entry without terminating the watch. -/
def watchNewLogs (filter : customFilter) :
    List RawLog → List DecodedEvent × List RawLog
  | [] => ([], [])
  | l :: rest =>
    let r := watchNewLogs filter rest
    match processLog filter l with
    | some (.ok ev) => (ev :: r.1, r.2)
    | some (.error bad) => (r.1, bad :: r.2)
    | none => r

/-- C8: for every log entry delivered to the watch that matches the filter
address — an unknown topic is skipped with no event and no error; a known
topic that fails structural decoding reports a decode error for that entry
while the rest of the watch continues unchanged; a structurally valid entry
with a known topic yields exactly its decoded event. -/
theorem watch_decode_policy (filter : customFilter) (l : RawLog)
    (rest : List RawLog) (haddr : l.address ∈ filter.addresses) :
    ((filter.contractABI.knownTopic l.topic) = false →
      watchNewLogs filter (l :: rest) = watchNewLogs filter rest) ∧
    (∀ ev : DecodedEvent, (filter.contractABI.knownTopic l.topic) = true →
      filter.contractABI.decodeLog l = some ev →
      watchNewLogs filter (l :: rest) =
        (ev :: (watchNewLogs filter rest).1, (watchNewLogs filter rest).2)) ∧
    ((filter.contractABI.knownTopic l.topic) = true →
      filter.contractABI.decodeLog l = none →
      watchNewLogs filter (l :: rest) =
        ((watchNewLogs filter rest).1, l :: (watchNewLogs filter rest).2)) := by
  refine ⟨?_, ?_, ?_⟩
  · intro hk
    simp [watchNewLogs, processLog, haddr, hk]
  · intro ev hk hd
    simp [watchNewLogs, processLog, haddr, hk, hd]
  · intro hk hd
    simp [watchNewLogs, processLog, haddr, hk, hd]

/-- A concrete ABI stub: topics 1 and 2 are known; only a topic-1 entry with
exactly one data word decodes. -/
def abiStub : ContractABIModel :=
  { knownTopic := fun t => t == 1 || t == 2
    decodeLog := fun l =>
      if l.topic == 1 && l.data.length == 1 then
        some { name := "UpdateGlobalExitRoot", address := l.address,
               blockNumber := l.blockNumber, logIndex := l.logIndex,
               args := [("newRoot", l.data.headD 0)] }
      else none }

def filterStub : customFilter := { contractABI := abiStub, addresses := [204] }

def logValid : RawLog :=
  { address := 204, topic := 1, data := [5], blockNumber := 10, logIndex := 0 }

def logMalformed : RawLog :=
  { address := 204, topic := 2, data := [], blockNumber := 10, logIndex := 1 }

def logUnknown : RawLog :=
  { address := 204, topic := 9, data := [], blockNumber := 10, logIndex := 2 }

/-- C8 witness: the spec's three-entry scenario — one valid entry with a known
signature, one known-signature entry with invalid structure, one unrecognized
entry — yields exactly one decoded event, one decode error, and silently skips
the unrecognized entry. -/
theorem watch_decode_policy_witness :
    watchNewLogs filterStub [logValid, logMalformed, logUnknown] =
      ([{ name := "UpdateGlobalExitRoot", address := 204, blockNumber := 10,
          logIndex := 0, args := [("newRoot", 5)] }], [logMalformed]) := by
  have h3 := (watch_decode_policy filterStub logUnknown [] (by decide)).1 (by decide)
  have h2 := (watch_decode_policy filterStub logMalformed [logUnknown]
    (by decide)).2.2 (by decide) (by decide)
  have h1 := (watch_decode_policy filterStub logValid [logMalformed, logUnknown]
    (by decide)).2.1
    { name := "UpdateGlobalExitRoot", address := 204, blockNumber := 10,
      logIndex := 0, args := [("newRoot", 5)] } (by decide) (by decide)
  rw [h1, h2, h3]
  rfl

/-! ## C10 — rollup-id parsing and the uint32 truncation -/

def decDigitsVal (l : List Char) : Nat :=
  l.foldl (fun acc c => acc * 10 + (c.toNat - '0'.toNat)) 0

/-- `strconv.Atoi` on a 64-bit platform (equivalently
`strconv.ParseInt(s, 10, 64)` up to the concrete error value): an optional
sign followed by at least one decimal digit; any other character, the empty
string, and any value outside the int64 range are errors. -/
def goAtoi (s : String) : Option Int :=
  let signedVal : Option Int :=
    match s.toList with
    | [] => none
    | '+' :: rest =>
      if !rest.isEmpty && rest.all Char.isDigit then some (Int.ofNat (decDigitsVal rest))
      else none
    | '-' :: rest =>
      if !rest.isEmpty && rest.all Char.isDigit then some (-(Int.ofNat (decDigitsVal rest)))
      else none
    | chars =>
      if chars.all Char.isDigit then some (Int.ofNat (decDigitsVal chars)) else none
  match signedVal with
  | none => none
  | some n => if -(2 ^ 63) ≤ n ∧ n < 2 ^ 63 then some n else none

theorem goAtoi_nonempty {s : String} {n : Int} (h : goAtoi s = some n) :
    0 < s.length := by
  by_contra hlen
  have hs : s = "" := by
    cases s with
    | mk data =>
      cases data with
      | nil => rfl
      | cons c cs => simp [String.length] at hlen
  subst hs
  simp [goAtoi] at h

structure parsedRollupArgs where
  rollupID : Nat
  rollupChainID : Nat
  rollupAddress : Address
  deriving DecidableEq, Repr

/-- `parseRollupArgs` (cdk.go): parses the rollup-chain-id (`ParseInt` base 10
bit-size 64 plus a non-negativity check), then the rollup address (hex check,
Go zero `common.Address{}` modelled as 0), then the rollup id:
`strconv.Atoi` plus non-negativity, then the Go conversion `uint32(n)` —
truncation modulo `2 ^ 32`. With no rollup id, it falls back to the contract
lookups keyed by chain id or address. The chain-id error message interpolates
the rollup-id flag value, as the source does. -/
def parseRollupArgs (rollupIDArg rollupChainIDArg rollupAddressArg : Option String)
    (rollupManager : rollupManagerContractInterface) : Except Err parsedRollupArgs :=
  let chainE : Except Err Nat :=
    match rollupChainIDArg with
    | some s =>
      if s.length > 0 then
        match goAtoi s with
        | none =>
          .error ("invalid rollupChainID: " ++ rollupIDArg.getD "" ++
            ", it must be a valid uint64")
        | some n =>
          if n < 0 then
            .error ("invalid rollupChainID: " ++ rollupIDArg.getD "" ++
              ", it must be a valid uint64")
          else .ok n.toNat
      else .ok 0
    | none => .ok 0
  match chainE with
  | .error e => .error e
  | .ok rollupChainID =>
  let addrE : Except Err Address :=
    match rollupAddressArg with
    | some s =>
      if s.length > 0 then
        match checkAddressArg ArgRollupAddress s with
        | .error e => .error e
        | .ok _ => .ok (hexToAddress s)
      else .ok 0
    | none => .ok 0
  match addrE with
  | .error e => .error e
  | .ok rollupAddress =>
  let fallback : Except Err parsedRollupArgs :=
    if rollupChainID = 0 ∧ rollupAddress = 0 then
      .error (ArgRollupID ++ ", " ++ ArgRollupChainID ++ ", or " ++ ArgRollupAddress ++
        " must be provided")
    else if rollupChainID ≠ 0 then
      match rollupManager.ChainIDToRollupID rollupChainID with
      | .error e => .error e
      | .ok rid =>
        .ok { rollupID := rid, rollupChainID := rollupChainID,
              rollupAddress := rollupAddress }
    else if rollupAddress ≠ 0 then
      match rollupManager.RollupAddressToID rollupAddress with
      | .error e => .error e
      | .ok rid =>
        .ok { rollupID := rid, rollupChainID := rollupChainID,
              rollupAddress := rollupAddress }
    else
      .ok { rollupID := 0, rollupChainID := rollupChainID,
            rollupAddress := rollupAddress }
  match rollupIDArg with
  | some s =>
    if s.length > 0 then
      match goAtoi s with
      | none => .error ("invalid rollupID: " ++ s ++ ", it must be a valid uint32")
      | some n =>
        if n < 0 then
          .error ("invalid rollupID: " ++ s ++ ", it must be a valid uint32")
        else
          .ok { rollupID := n.toNat % 2 ^ 32, rollupChainID := rollupChainID,
                rollupAddress := rollupAddress }
    else fallback
  | none => fallback

/-- C10 counterexample: the decimal string for `2 ^ 63` is numeric (all
digits) and non-negative, yet `strconv.Atoi` fails on it with a range error —
it exceeds the machine int — so `parseRollupArgs` rejects it with the
"must be a valid uint32" error, refuting the claim that only non-numeric or
negative strings are rejected. -/
theorem rollup_id_numeric_string_rejected_beyond_int64 :
    parseRollupArgs (some "9223372036854775808") none none rmStubOk =
      Except.error "invalid rollupID: 9223372036854775808, it must be a valid uint32" ∧
    "9223372036854775808".toList.all Char.isDigit = true :=
  ⟨rfl, rfl⟩

/-- C10 (amended): every decimal rollup-id string parsing to a non-negative
value within the machine int range — including every value in
`[2 ^ 32, 2 ^ 63)` — is accepted, and the stored uint32 `rollupID` is the
value reduced modulo `2 ^ 32`; a rollup-id string is rejected with the
"must be a valid uint32" error exactly when 64-bit parsing fails (a
non-numeric string, or a numeric one outside the int64 range) or the parsed
value is negative. -/
theorem rollup_id_truncated_mod_two_pow_32
    (rollupManager : rollupManagerContractInterface) (s : String) (n : Int)
    (hp : goAtoi s = some n) (hn : 0 ≤ n) :
    parseRollupArgs (some s) none none rollupManager =
      Except.ok { rollupID := n.toNat % 2 ^ 32, rollupChainID := 0,
                  rollupAddress := 0 } ∧
    (∀ s2 : String, 0 < s2.length → goAtoi s2 = none →
      parseRollupArgs (some s2) none none rollupManager =
        Except.error ("invalid rollupID: " ++ s2 ++ ", it must be a valid uint32")) ∧
    (∀ (s3 : String) (m : Int), goAtoi s3 = some m → m < 0 →
      parseRollupArgs (some s3) none none rollupManager =
        Except.error ("invalid rollupID: " ++ s3 ++ ", it must be a valid uint32")) := by
  refine ⟨?_, ?_, ?_⟩
  · have hlen := goAtoi_nonempty hp
    have hn2 : ¬ n < 0 := by omega
    simp [parseRollupArgs, hlen, hp, hn2]
  · intro s2 hlen2 hnone
    simp [parseRollupArgs, hlen2, hnone]
  · intro s3 m hm hneg
    have hlen3 := goAtoi_nonempty hm
    simp [parseRollupArgs, hlen3, hm, hneg]

/-- C10 witness: the string for `2 ^ 32` parses and is stored as
`rollupID = 0`. -/
theorem rollup_id_truncated_mod_two_pow_32_witness :
    parseRollupArgs (some "4294967296") none none rmStubOk =
      Except.ok { rollupID := 0, rollupChainID := 0, rollupAddress := 0 } := by
  have h := (rollup_id_truncated_mod_two_pow_32 rmStubOk "4294967296" 4294967296
    (by decide) (by decide)).1
  rw [h]
  rfl

end PolygonCli
